import Mathlib

/-!
Verification of the Pangea tool-guard adapters
(`domain_intel_guard.py`, `ip_intel_guard.py`, `ai_guard.py`).

The embedding models:
* the two extraction regular expressions (as an AST with both a
  declarative language semantics and an executable Python-style
  backtracking matcher with `\b` word boundaries and `findall` scanning),
* the credential-resolution logic of the constructors,
* the `_process_text` / `_run` decision pipelines, with the vendor
  client passed in as a function and the number of vendor calls made
  returned alongside the result.

Characters are interpreted over ASCII text (the inputs the adapters are
specified on); `\d` is the ASCII digit class and `\b` uses the ASCII
word-character class `[a-zA-Z0-9_]`.
-/

/-- Character class `[a-zA-Z0-9-]` from the domain pattern. -/
def isAlnumHyphenChar (c : Char) : Bool := c.isAlpha || c.isDigit || c == '-'

/-- Character class `[a-zA-Z]` from the domain pattern. -/
def isAsciiAlphaChar (c : Char) : Bool := c.isAlpha

/-- Character class `\d` (ASCII digits) from the IP pattern. -/
def isDigitChar (c : Char) : Bool := c.isDigit

/-- Python word character used by `\b`: `[a-zA-Z0-9_]`. -/
def isWordChar (c : Char) : Bool := c.isAlpha || c.isDigit || c == '_'

/-- The literal dot `\.` character class. -/
def isDotChar (c : Char) : Bool := c == '.'

/-- Regular-expression abstract syntax, covering exactly the constructs
used by the two source patterns: character classes, concatenation,
bounded repetition `{lo,hi}`, `+`, and `{lo,}`. -/
inductive RE where
  | cls (p : Char → Bool)
  | cat (a b : RE)
  | repRange (a : RE) (lo hi : Nat)
  | plus (a : RE)
  | atLeast (a : RE) (lo : Nat)

/-- Declarative language semantics of a regular expression: which
character lists belong to the language of each pattern. -/
inductive REMatch : RE → List Char → Prop where
  | cls {p : Char → Bool} {c : Char} :
      p c = true → REMatch (.cls p) [c]
  | cat {a b : RE} {s t : List Char} :
      REMatch a s → REMatch b t → REMatch (.cat a b) (s ++ t)
  | repRange {a : RE} {lo hi : Nat} {ss : List (List Char)} :
      (∀ u ∈ ss, REMatch a u) → lo ≤ ss.length → ss.length ≤ hi →
      REMatch (.repRange a lo hi) ss.flatten
  | plus {a : RE} {ss : List (List Char)} :
      (∀ u ∈ ss, REMatch a u) → ss ≠ [] →
      REMatch (.plus a) ss.flatten
  | atLeast {a : RE} {lo : Nat} {ss : List (List Char)} :
      (∀ u ∈ ss, REMatch a u) → lo ≤ ss.length →
      REMatch (.atLeast a lo) ss.flatten

/-- `PangeaDomainIntelGuard._domain_pattern`, the core of
`r"\b(?:[a-zA-Z0-9-]+\.)+[a-zA-Z]{2,}\b"` (the `\b` anchors are handled
by the matcher, not the language). -/
def domain_pattern : RE :=
  .cat (.plus (.cat (.plus (.cls isAlnumHyphenChar)) (.cls isDotChar)))
       (.atLeast (.cls isAsciiAlphaChar) 2)

/-- `PangeaIpIntelGuard._ip_pattern`, the core of
`r"\b(?:\d{1,3}\.){3}\d{1,3}\b"`. -/
def ip_pattern : RE :=
  .cat (.repRange (.cat (.repRange (.cls isDigitChar) 1 3) (.cls isDotChar)) 3 3)
       (.repRange (.cls isDigitChar) 1 3)

/-- The spec's domain grammar: a label is a non-empty run of
letters/digits/hyphens. -/
def IsDomainLabel (l : List Char) : Prop :=
  l ≠ [] ∧ ∀ c ∈ l, isAlnumHyphenChar c = true

/-- The spec's domain grammar: one or more labels, each followed by a
dot, ending in a final label of at least two letters. -/
def SpecDomain (s : List Char) : Prop :=
  ∃ labels fin, labels ≠ [] ∧ (∀ l ∈ labels, IsDomainLabel l) ∧
    2 ≤ List.length fin ∧ (∀ c ∈ fin, isAsciiAlphaChar c = true) ∧
    s = (labels.map (fun l => l ++ ['.'])).flatten ++ fin

/-- The spec's IPv4 grammar: a group is one to three digits (no 0-255
bounds check). -/
def IsIpGroup (g : List Char) : Prop :=
  1 ≤ List.length g ∧ List.length g ≤ 3 ∧ ∀ c ∈ g, isDigitChar c = true

/-- The spec's IPv4 grammar: four dot-separated groups of one to three
digits. -/
def SpecIp (s : List Char) : Prop :=
  ∃ g1 g2 g3 g4, IsIpGroup g1 ∧ IsIpGroup g2 ∧ IsIpGroup g3 ∧ IsIpGroup g4 ∧
    s = g1 ++ '.' :: (g2 ++ '.' :: (g3 ++ '.' :: g4))

/-- Executable Python-style backtracking matcher (greedy quantifiers,
leftmost alternative first). `k` is the continuation receiving the
remaining suffix; the result is the total value produced by the first
(highest-priority) successful continuation. `fuel` bounds recursion
depth; every construct of the two source patterns consumes at least one
character per loop iteration, so a fuel linear in the input length is
sufficient. -/
def reMatch (fuel : Nat) (r : RE) (s : List Char) (k : List Char → Option Nat) :
    Option Nat :=
  match fuel with
  | 0 => none
  | fuel + 1 =>
    match r with
    | .cls p =>
      match s with
      | [] => none
      | c :: rest => if p c then k rest else none
    | .cat a b => reMatch fuel a s (fun s2 => reMatch fuel b s2 k)
    | .plus a =>
      reMatch fuel a s (fun s2 => (reMatch fuel (.plus a) s2 k).orElse (fun _ => k s2))
    | .repRange a lo hi =>
      match hi with
      | 0 => if lo = 0 then k s else none
      | hi + 1 =>
        match lo with
        | 0 =>
          (reMatch fuel a s (fun s2 => reMatch fuel (.repRange a 0 hi) s2 k)).orElse
            (fun _ => k s)
        | lo + 1 => reMatch fuel a s (fun s2 => reMatch fuel (.repRange a lo hi) s2 k)
    | .atLeast a lo =>
      match lo with
      | 0 =>
        (reMatch fuel a s (fun s2 => reMatch fuel (.atLeast a 0) s2 k)).orElse
          (fun _ => k s)
      | lo + 1 => reMatch fuel a s (fun s2 => reMatch fuel (.atLeast a lo) s2 k)

/-- Python `\b`: a word boundary sits between two positions exactly when
one side is a word character and the other is not (the edges of the
string count as non-word). -/
def wordBoundary (l r : Option Char) : Bool :=
  (match l with | none => false | some c => isWordChar c) !=
  (match r with | none => false | some c => isWordChar c)

/-- Fuel budget for matching the source patterns at one position. -/
def matchFuel (s : List Char) : Nat := 16 * (s.length + 2)

/-- Try to match `\b core \b` at the start of `s`, where `prev` is the
character just before `s` in the full input. Returns the length of the
(greedy, Python-priority) match. -/
def tryMatchAt (core : RE) (prev : Option Char) (s : List Char) : Option Nat :=
  if wordBoundary prev s.head? then
    reMatch (matchFuel s) core s (fun s2 =>
      let len := s.length - s2.length
      if wordBoundary (s.get? (len - 1)) s2.head? then some len else none)
  else none

/-- `re.findall` scanning loop: at each position try a match; on success
record it and resume after it, otherwise advance one character. Both
source patterns only match non-empty strings, so every step consumes at
least one character and a fuel of the input length suffices. -/
def findAllAux (core : RE) : Nat → Option Char → List Char → List (List Char)
  | 0, _, _ => []
  | _ + 1, _, [] => []
  | fuel + 1, prev, c :: rest =>
    match tryMatchAt core prev (c :: rest) with
    | some (len + 1) =>
      (c :: rest).take (len + 1) ::
        findAllAux core fuel ((c :: rest).get? len) ((c :: rest).drop (len + 1))
    | _ => findAllAux core fuel (some c) rest

/-- `re.findall(pattern, input_text)` over a `String`. -/
def re_findall (core : RE) (input_text : String) : List String :=
  (findAllAux core (input_text.length + 1) none input_text.toList).map
    (fun cs => String.mk cs)

/-- `pydantic.SecretStr`: a wrapper hiding its string from display. -/
structure SecretStr where
  secret_value : String
deriving DecidableEq

/-- `SecretStr.get_secret_value()`. -/
def SecretStr.get_secret_value (s : SecretStr) : String := s.secret_value

/-- Python truthiness of a `SecretStr` value: `SecretStr` defines
`__len__`, so `SecretStr("")` is falsy. -/
def SecretStr.toBool (s : SecretStr) : Bool := s.secret_value ≠ ""

/-- Python truthiness of an `Optional[SecretStr]`: `None` is falsy,
otherwise the `SecretStr`'s own truthiness applies. -/
def pyTruthySecret : Option SecretStr → Bool
  | none => false
  | some s => s.toBool

/-- `os.getenv(key, "")` against an environment `env`. -/
def os_getenv (env : String → Option String) (key dflt : String) : String :=
  (env key).getD dflt

/-- The credential-resolution prefix shared verbatim by all three
constructors:

    if not token:
        token = SecretStr(os.getenv(token_env_key_name, ""))
    if not token or not token.get_secret_value() or token.get_secret_value() == "":
        raise ValueError(f"'SOME_KEY' must be set or passed")

Returns the resolved secret or the `ValueError` message. -/
def resolve_token (env : String → Option String) (token0 : Option SecretStr)
    (token_env_key_name : String) : Except String SecretStr :=
  let token : Option SecretStr :=
    if pyTruthySecret token0 = false then
      some (SecretStr.mk (os_getenv env token_env_key_name ""))
    else token0
  if (!pyTruthySecret token ||
      (match token with
       | none => true
       | some t => t.get_secret_value == "" || t.get_secret_value == "")) then
    .error ("'" ++ token_env_key_name ++ "' must be set or passed")
  else
    match token with
    | some t => .ok t
    | none => .error ("'" ++ token_env_key_name ++ "' must be set or passed")

/-- The three dedicated error classes, one per adapter
(`PangeaDomainIntelGuardError`, `PangeaIpGuardError`,
`PangeaAIGuardError`), each carrying its message. -/
inductive PangeaError where
  | domainIntelGuardError (message : String)
  | ipGuardError (message : String)
  | aiGuardError (message : String)
deriving DecidableEq

/-- One entry of the bulk-reputation response's `data` mapping: the
per-entity verdict with its numeric `score`. -/
structure IntelData where
  score : Int
deriving DecidableEq

/-- The `result` payload of a bulk-reputation response: `data` maps each
entity to its verdict (`.values()` is `data.map Prod.snd`). -/
structure IntelResult where
  data : List (String × IntelData)
deriving DecidableEq

/-- A bulk-reputation response; `result` is `none` when the payload is
missing or falsy. -/
structure IntelResponse where
  result : Option IntelResult
deriving DecidableEq

/-- `PangeaDomainIntelGuard` after construction: the threshold and the
token the `DomainIntel` client was constructed with. -/
structure PangeaDomainIntelGuard where
  threshold : Int
  client_token : String
deriving DecidableEq

/-- `PangeaDomainIntelGuard.__init__`. The second component records
whether the vendor client was constructed during initialisation. -/
def PangeaDomainIntelGuard.init (env : String → Option String)
    (token : Option SecretStr) (threshold : Int)
    (token_env_key_name : String) :
    Except String PangeaDomainIntelGuard × Bool :=
  match resolve_token env token token_env_key_name with
  | .error e => (.error e, false)
  | .ok t =>
    (.ok { threshold := threshold, client_token := t.get_secret_value }, true)

/-- `PangeaDomainIntelGuard._process_text`. The vendor client's
`reputation_bulk` is passed in as a function; the second component of
the result counts how many vendor calls the invocation made. -/
def PangeaDomainIntelGuard.process_text (self : PangeaDomainIntelGuard)
    (reputation_bulk : List String → IntelResponse) (input_text : String) :
    Except PangeaError String × Nat :=
  let domains := re_findall domain_pattern input_text
  if domains.length = 0 then
    (.ok input_text, 0)
  else
    let intel := reputation_bulk domains
    match intel.result with
    | none => (.error (.domainIntelGuardError "Result is invalid or missing"), 1)
    | some result =>
      if (result.data.map Prod.snd).any (fun d => self.threshold ≤ d.score) then
        (.ok "Malicious domains found in the provided input.", 1)
      else
        (.ok input_text, 1)

/-- `PangeaIpIntelGuard` after construction. -/
structure PangeaIpIntelGuard where
  threshold : Int
  client_token : String
deriving DecidableEq

/-- `PangeaIpIntelGuard.__init__`. -/
def PangeaIpIntelGuard.init (env : String → Option String)
    (token : Option SecretStr) (threshold : Int)
    (token_env_key_name : String) :
    Except String PangeaIpIntelGuard × Bool :=
  match resolve_token env token token_env_key_name with
  | .error e => (.error e, false)
  | .ok t =>
    (.ok { threshold := threshold, client_token := t.get_secret_value }, true)

/-- `PangeaIpIntelGuard._process_text`. -/
def PangeaIpIntelGuard.process_text (self : PangeaIpIntelGuard)
    (reputation_bulk : List String → IntelResponse) (input_text : String) :
    Except PangeaError String × Nat :=
  let ips := re_findall ip_pattern input_text
  if ips.length = 0 then
    (.ok input_text, 0)
  else
    let intel := reputation_bulk ips
    match intel.result with
    | none => (.error (.ipGuardError "Result is invalid or missing"), 1)
    | some result =>
      if (result.data.map Prod.snd).any (fun d => self.threshold ≤ d.score) then
        (.ok "Malicious IPs found in the provided input.", 1)
      else
        (.ok input_text, 1)

/-- The `result` payload of an AI Guard response; `redacted_prompt` is
the optional redacted text field. -/
structure AIGuardResult where
  redacted_prompt : Option String
deriving DecidableEq

/-- An AI Guard `guard_text` response. -/
structure AIGuardResponse where
  result : Option AIGuardResult
deriving DecidableEq

/-- Python truthiness of the `Optional[str]` field `redacted_prompt`:
`None` and `""` are falsy. -/
def pyTruthyStr : Option String → Bool
  | none => false
  | some s => s ≠ ""

/-- `PangeaAIGuard` after construction. -/
structure PangeaAIGuard where
  recipe : String
  client_token : String
deriving DecidableEq

/-- `PangeaAIGuard.__init__`. -/
def PangeaAIGuard.init (env : String → Option String)
    (pangea_token : Option SecretStr)
    (pangea_token_env_key_name : String) (recipe : String) :
    Except String PangeaAIGuard × Bool :=
  match resolve_token env pangea_token pangea_token_env_key_name with
  | .error e => (.error e, false)
  | .ok t =>
    (.ok { recipe := recipe, client_token := t.get_secret_value }, true)

/-- `PangeaAIGuard._run`. The vendor client's `guard_text` is passed in
as a function of the text and the recipe; the second component counts
vendor calls. -/
def PangeaAIGuard.run (self : PangeaAIGuard)
    (guard_text : String → String → AIGuardResponse) (input_text : String) :
    Except PangeaError String × Nat :=
  let guarded := guard_text input_text self.recipe
  match guarded.result with
  | none => (.error (.aiGuardError "Result is invalid or missing"), 1)
  | some result =>
    if pyTruthyStr result.redacted_prompt then
      (.ok (result.redacted_prompt.getD input_text), 1)
    else
      (.ok input_text, 1)

/-- An invocation of the domain adapter as a state transformer: the
method never assigns to `self`, so the state after the call is the state
before it. -/
def PangeaDomainIntelGuard.invoke (self : PangeaDomainIntelGuard)
    (reputation_bulk : List String → IntelResponse) (input_text : String) :
    (Except PangeaError String × Nat) × PangeaDomainIntelGuard :=
  (self.process_text reputation_bulk input_text, self)

/-- An invocation of the IP adapter as a state transformer. -/
def PangeaIpIntelGuard.invoke (self : PangeaIpIntelGuard)
    (reputation_bulk : List String → IntelResponse) (input_text : String) :
    (Except PangeaError String × Nat) × PangeaIpIntelGuard :=
  (self.process_text reputation_bulk input_text, self)

/-- An invocation of the AI Guard adapter as a state transformer. -/
def PangeaAIGuard.invoke (self : PangeaAIGuard)
    (guard_text : String → String → AIGuardResponse) (input_text : String) :
    (Except PangeaError String × Nat) × PangeaAIGuard :=
  (self.run guard_text input_text, self)

theorem REMatch.cls_iff {p : Char → Bool} {s : List Char} :
    REMatch (.cls p) s ↔ ∃ c, p c = true ∧ s = [c] := by
  constructor
  · intro h
    cases h with
    | cls hp => exact ⟨_, hp, rfl⟩
  · rintro ⟨c, hp, rfl⟩
    exact .cls hp

theorem REMatch.cat_iff {a b : RE} {s : List Char} :
    REMatch (.cat a b) s ↔ ∃ u v, REMatch a u ∧ REMatch b v ∧ s = u ++ v := by
  constructor
  · intro h
    cases h with
    | cat hu hv => exact ⟨_, _, hu, hv, rfl⟩
  · rintro ⟨u, v, hu, hv, rfl⟩
    exact .cat hu hv

theorem REMatch.plus_iff {a : RE} {s : List Char} :
    REMatch (.plus a) s ↔
      ∃ ss : List (List Char),
        (∀ u ∈ ss, REMatch a u) ∧ ss ≠ [] ∧ s = ss.flatten := by
  constructor
  · intro h
    cases h with
    | plus hall hne => exact ⟨_, hall, hne, rfl⟩
  · rintro ⟨ss, hall, hne, rfl⟩
    exact .plus hall hne

theorem REMatch.repRange_iff {a : RE} {lo hi : Nat} {s : List Char} :
    REMatch (.repRange a lo hi) s ↔
      ∃ ss : List (List Char),
        (∀ u ∈ ss, REMatch a u) ∧ lo ≤ ss.length ∧ ss.length ≤ hi ∧
        s = ss.flatten := by
  constructor
  · intro h
    cases h with
    | repRange hall hlo hhi => exact ⟨_, hall, hlo, hhi, rfl⟩
  · rintro ⟨ss, hall, hlo, hhi, rfl⟩
    exact .repRange hall hlo hhi

theorem REMatch.atLeast_iff {a : RE} {lo : Nat} {s : List Char} :
    REMatch (.atLeast a lo) s ↔
      ∃ ss : List (List Char),
        (∀ u ∈ ss, REMatch a u) ∧ lo ≤ ss.length ∧ s = ss.flatten := by
  constructor
  · intro h
    cases h with
    | atLeast hall hlo => exact ⟨_, hall, hlo, rfl⟩
  · rintro ⟨ss, hall, hlo, rfl⟩
    exact .atLeast hall hlo

/-- Flattening a list of single-character matches of a class: every
character satisfies the class and the length equals the number of
matches. -/
theorem cls_flatten {p : Char → Bool} {ss : List (List Char)}
    (h : ∀ u ∈ ss, REMatch (.cls p) u) :
    (∀ c ∈ ss.flatten, p c = true) ∧ ss.flatten.length = ss.length := by
  induction ss with
  | nil => simp
  | cons u us ih =>
    obtain ⟨c, hc, rfl⟩ := REMatch.cls_iff.mp (h u (by simp))
    obtain ⟨h1, h2⟩ := ih (fun v hv => h v (by simp [hv]))
    refine ⟨?_, by simp [h2]⟩
    intro d hd
    rcases (by simpa using hd : d = c ∨ d ∈ us.flatten) with rfl | hd
    · exact hc
    · exact h1 d hd

theorem flatten_map_singleton (s : List Char) :
    (s.map (fun c => [c])).flatten = s := by
  induction s with
  | nil => rfl
  | cons c cs ih => simp [ih]

theorem plus_cls_iff {p : Char → Bool} {s : List Char} :
    REMatch (.plus (.cls p)) s ↔ s ≠ [] ∧ ∀ c ∈ s, p c = true := by
  constructor
  · intro h
    rcases REMatch.plus_iff.mp h with ⟨ss, hall, hne, rfl⟩
    obtain ⟨h1, h2⟩ := cls_flatten hall
    refine ⟨?_, h1⟩
    intro hflat
    apply hne
    apply List.length_eq_zero.mp
    rw [← h2, hflat]
    rfl
  · rintro ⟨hne, hall⟩
    have h := @REMatch.plus (.cls p) (s.map (fun c => [c]))
      (by
        intro u hu
        simp only [List.mem_map] at hu
        obtain ⟨c, hc, rfl⟩ := hu
        exact .cls (hall c hc))
      (by simpa using hne)
    simpa [flatten_map_singleton] using h

theorem atLeast_cls_iff {p : Char → Bool} {n : Nat} {s : List Char} :
    REMatch (.atLeast (.cls p) n) s ↔ n ≤ s.length ∧ ∀ c ∈ s, p c = true := by
  constructor
  · intro h
    rcases REMatch.atLeast_iff.mp h with ⟨ss, hall, hlo, rfl⟩
    obtain ⟨h1, h2⟩ := cls_flatten hall
    exact ⟨h2 ▸ hlo, h1⟩
  · rintro ⟨hn, hall⟩
    have h := @REMatch.atLeast (.cls p) n (s.map (fun c => [c]))
      (by
        intro u hu
        simp only [List.mem_map] at hu
        obtain ⟨c, hc, rfl⟩ := hu
        exact .cls (hall c hc))
      (by simpa using hn)
    simpa [flatten_map_singleton] using h

theorem repRange_cls_iff {p : Char → Bool} {lo hi : Nat} {s : List Char} :
    REMatch (.repRange (.cls p) lo hi) s ↔
      lo ≤ s.length ∧ s.length ≤ hi ∧ ∀ c ∈ s, p c = true := by
  constructor
  · intro h
    rcases REMatch.repRange_iff.mp h with ⟨ss, hall, hlo, hhi, rfl⟩
    obtain ⟨h1, h2⟩ := cls_flatten hall
    exact ⟨h2 ▸ hlo, h2 ▸ hhi, h1⟩
  · rintro ⟨hlo, hhi, hall⟩
    have h := @REMatch.repRange (.cls p) lo hi (s.map (fun c => [c]))
      (by
        intro u hu
        simp only [List.mem_map] at hu
        obtain ⟨c, hc, rfl⟩ := hu
        exact .cls (hall c hc))
      (by simpa using hlo)
      (by simpa using hhi)
    simpa [flatten_map_singleton] using h

/-- A match of `(?:[a-zA-Z0-9-]+\.)` is exactly a label followed by a
dot. -/
theorem labelDot_iff {w : List Char} :
    REMatch (.cat (.plus (.cls isAlnumHyphenChar)) (.cls isDotChar)) w ↔
      ∃ l, IsDomainLabel l ∧ w = l ++ ['.'] := by
  constructor
  · intro h
    rcases REMatch.cat_iff.mp h with ⟨u, v, hu, hv, rfl⟩
    rcases REMatch.cls_iff.mp hv with ⟨c, hc, rfl⟩
    rcases plus_cls_iff.mp hu with ⟨hne, hall⟩
    have hcd : c = '.' := by simpa [isDotChar] using hc
    subst hcd
    exact ⟨u, ⟨hne, hall⟩, rfl⟩
  · rintro ⟨l, ⟨hne, hall⟩, rfl⟩
    exact REMatch.cat (plus_cls_iff.mpr ⟨hne, hall⟩) (.cls (by simp [isDotChar]))

/-- Turn a list of label-dot matches into the list of labels. -/
theorem exists_labels {ss : List (List Char)}
    (h : ∀ w ∈ ss, ∃ l, IsDomainLabel l ∧ w = l ++ ['.']) :
    ∃ labels : List (List Char), (∀ l ∈ labels, IsDomainLabel l) ∧
      ss = labels.map (fun l => l ++ ['.']) ∧ labels.length = ss.length := by
  induction ss with
  | nil => exact ⟨[], by simp, by simp, rfl⟩
  | cons w ws ih =>
    obtain ⟨l, hl, rfl⟩ := h w (by simp)
    obtain ⟨ls, h1, h2, h3⟩ := ih (fun v hv => h v (by simp [hv]))
    refine ⟨l :: ls, ?_, by simp [h2], by simp [h3]⟩
    intro m hm
    rcases (by simpa using hm : m = l ∨ m ∈ ls) with rfl | hm
    · exact hl
    · exact h1 m hm

/-- The language of the domain pattern's core is exactly the spec's
domain grammar. -/
theorem domain_pattern_lang {s : List Char} :
    REMatch domain_pattern s ↔ SpecDomain s := by
  unfold domain_pattern SpecDomain
  constructor
  · intro h
    rcases REMatch.cat_iff.mp h with ⟨u, v, hu, hv, rfl⟩
    rcases REMatch.plus_iff.mp hu with ⟨ss, hall, hne, rfl⟩
    obtain ⟨labels, hlab, rfl, hlen⟩ :=
      exists_labels (fun w hw => labelDot_iff.mp (hall w hw))
    rcases atLeast_cls_iff.mp hv with ⟨hfin, hvall⟩
    refine ⟨labels, v, ?_, hlab, hfin, hvall, rfl⟩
    intro hcon
    subst hcon
    simp at hne
  · rintro ⟨labels, fin, hne, hlab, hfinlen, hfinall, rfl⟩
    apply REMatch.cat
    · apply REMatch.plus
      · intro w hw
        simp only [List.mem_map] at hw
        obtain ⟨l, hl, rfl⟩ := hw
        exact labelDot_iff.mpr ⟨l, hlab l hl, rfl⟩
      · simpa using hne
    · exact atLeast_cls_iff.mpr ⟨hfinlen, hfinall⟩

/-- A match of `(?:\d{1,3}\.)` is exactly a digit group followed by a
dot. -/
theorem ipGroupDot_iff {w : List Char} :
    REMatch (.cat (.repRange (.cls isDigitChar) 1 3) (.cls isDotChar)) w ↔
      ∃ g, IsIpGroup g ∧ w = g ++ ['.'] := by
  constructor
  · intro h
    rcases REMatch.cat_iff.mp h with ⟨u, v, hu, hv, rfl⟩
    rcases REMatch.cls_iff.mp hv with ⟨c, hc, rfl⟩
    rcases repRange_cls_iff.mp hu with ⟨h1, h2, h3⟩
    have hcd : c = '.' := by simpa [isDotChar] using hc
    subst hcd
    exact ⟨u, ⟨h1, h2, h3⟩, rfl⟩
  · rintro ⟨g, ⟨h1, h2, h3⟩, rfl⟩
    exact REMatch.cat (repRange_cls_iff.mpr ⟨h1, h2, h3⟩)
      (.cls (by simp [isDotChar]))

/-- The language of the IP pattern's core is exactly the spec's IPv4
grammar. -/
theorem ip_pattern_lang {s : List Char} :
    REMatch ip_pattern s ↔ SpecIp s := by
  unfold ip_pattern SpecIp
  constructor
  · intro h
    rcases REMatch.cat_iff.mp h with ⟨u, v, hu, hv, rfl⟩
    rcases REMatch.repRange_iff.mp hu with ⟨ss, hall, hlo, hhi, rfl⟩
    have hlen : ss.length = 3 := le_antisymm hhi hlo
    obtain ⟨t1, t2, t3, rfl⟩ := List.length_eq_three.mp hlen
    obtain ⟨g1, hg1, rfl⟩ := ipGroupDot_iff.mp (hall t1 (by simp))
    obtain ⟨g2, hg2, rfl⟩ := ipGroupDot_iff.mp (hall t2 (by simp))
    obtain ⟨g3, hg3, rfl⟩ := ipGroupDot_iff.mp (hall t3 (by simp))
    rcases repRange_cls_iff.mp hv with ⟨h1, h2, h3⟩
    exact ⟨g1, g2, g3, v, hg1, hg2, hg3, ⟨h1, h2, h3⟩, by simp⟩
  · rintro ⟨g1, g2, g3, g4, h1, h2, h3, h4, rfl⟩
    have heq : g1 ++ '.' :: (g2 ++ '.' :: (g3 ++ '.' :: g4)) =
        ([g1 ++ ['.'], g2 ++ ['.'], g3 ++ ['.']] : List (List Char)).flatten ++ g4 := by
      simp
    rw [heq]
    apply REMatch.cat
    · apply REMatch.repRange
      · intro w hw
        rcases (by simpa using hw :
            w = g1 ++ ['.'] ∨ w = g2 ++ ['.'] ∨ w = g3 ++ ['.']) with rfl | rfl | rfl
        · exact ipGroupDot_iff.mpr ⟨g1, h1, rfl⟩
        · exact ipGroupDot_iff.mpr ⟨g2, h2, rfl⟩
        · exact ipGroupDot_iff.mpr ⟨g3, h3, rfl⟩
      · simp
      · simp
    · exact repRange_cls_iff.mpr ⟨h4.1, h4.2.1, h4.2.2⟩

/-- The domain block message itself contains no domain match, so a
pass-through output can never coincide with it. -/
theorem domain_block_msg_no_match :
    re_findall domain_pattern "Malicious domains found in the provided input." = [] := by
  decide

/-- The IP block message itself contains no IP match. -/
theorem ip_block_msg_no_match :
    re_findall ip_pattern "Malicious IPs found in the provided input." = [] := by
  decide

/-- C3: with zero regex matches the domain and IP adapters return the
input unchanged and make zero vendor calls. -/
theorem no_match_short_circuits :
    (∀ (g : PangeaDomainIntelGuard) (rb : List String → IntelResponse)
        (input_text : String),
      re_findall domain_pattern input_text = [] →
      g.process_text rb input_text = (.ok input_text, 0)) ∧
    (∀ (g : PangeaIpIntelGuard) (rb : List String → IntelResponse)
        (input_text : String),
      re_findall ip_pattern input_text = [] →
      g.process_text rb input_text = (.ok input_text, 0)) := by
  constructor
  · intro g rb input_text h
    simp [PangeaDomainIntelGuard.process_text, h]
  · intro g rb input_text h
    simp [PangeaIpIntelGuard.process_text, h]

/-- Witness for C3: "hello world" yields no matches for either pattern
and both adapters pass it through with zero vendor calls. -/
theorem no_match_short_circuits_witness :
    (PangeaDomainIntelGuard.mk 80 "tok").process_text
        (fun _ => ⟨none⟩) "hello world" = (.ok "hello world", 0) ∧
    (PangeaIpIntelGuard.mk 80 "tok").process_text
        (fun _ => ⟨none⟩) "hello world" = (.ok "hello world", 0) :=
  ⟨no_match_short_circuits.1 _ _ _ (by decide),
   no_match_short_circuits.2 _ _ _ (by decide)⟩

/-- C8: with a non-empty list of extracted entities the domain and IP
adapters make exactly one (batched) vendor call. -/
theorem one_batched_call_per_invocation :
    (∀ (g : PangeaDomainIntelGuard) (rb : List String → IntelResponse)
        (input_text : String),
      re_findall domain_pattern input_text ≠ [] →
      (g.process_text rb input_text).2 = 1) ∧
    (∀ (g : PangeaIpIntelGuard) (rb : List String → IntelResponse)
        (input_text : String),
      re_findall ip_pattern input_text ≠ [] →
      (g.process_text rb input_text).2 = 1) := by
  constructor
  · intro g rb input_text h
    simp only [PangeaDomainIntelGuard.process_text, List.length_eq_zero]
    rw [if_neg h]
    rcases (rb (re_findall domain_pattern input_text)).result with _ | res
    · rfl
    · by_cases hany :
        (res.data.map Prod.snd).any (fun d => decide (g.threshold ≤ d.score)) = true
      · simp [hany]
      · simp [hany]
  · intro g rb input_text h
    simp only [PangeaIpIntelGuard.process_text, List.length_eq_zero]
    rw [if_neg h]
    rcases (rb (re_findall ip_pattern input_text)).result with _ | res
    · rfl
    · by_cases hany :
        (res.data.map Prod.snd).any (fun d => decide (g.threshold ≤ d.score)) = true
      · simp [hany]
      · simp [hany]

/-- Witness for C8: a concrete input with one extracted entity makes
exactly one vendor call in each adapter. -/
theorem one_batched_call_per_invocation_witness :
    ((PangeaDomainIntelGuard.mk 80 "tok").process_text
        (fun _ => ⟨none⟩) "visit evil.com now").2 = 1 ∧
    ((PangeaIpIntelGuard.mk 80 "tok").process_text
        (fun _ => ⟨none⟩) "ping 1.2.3.4 now").2 = 1 :=
  ⟨one_batched_call_per_invocation.1 _ _ _ (by decide),
   one_batched_call_per_invocation.2 _ _ _ (by decide)⟩

/-- C10: the AI Guard adapter has no zero-match short-circuit: every
invocation, including on the empty string, makes exactly one vendor
call, and a missing result payload raises the invalid-result error even
for empty input. -/
theorem ai_guard_always_calls_vendor :
    (∀ (g : PangeaAIGuard) (guard_text : String → String → AIGuardResponse)
        (input_text : String),
      (g.run guard_text input_text).2 = 1) ∧
    (∀ (g : PangeaAIGuard) (guard_text : String → String → AIGuardResponse),
      (guard_text "" g.recipe).result = none →
      (g.run guard_text "").1 =
        .error (.aiGuardError "Result is invalid or missing")) := by
  constructor
  · intro g guard_text input_text
    simp only [PangeaAIGuard.run]
    rcases (guard_text input_text g.recipe).result with _ | res
    · rfl
    · by_cases h : pyTruthyStr res.redacted_prompt = true
      · simp [h]
      · simp [h]
  · intro g guard_text h
    simp [PangeaAIGuard.run, h]

/-- Witness for C10: with a vendor stub returning no result payload, the
empty input makes one vendor call and raises the AI Guard error. -/
theorem ai_guard_always_calls_vendor_witness :
    ((PangeaAIGuard.mk "pangea_prompt_guard" "tok").run
        (fun _ _ => ⟨none⟩) "").2 = 1 ∧
    ((PangeaAIGuard.mk "pangea_prompt_guard" "tok").run
        (fun _ _ => ⟨none⟩) "").1 =
      .error (.aiGuardError "Result is invalid or missing") :=
  ⟨ai_guard_always_calls_vendor.1 _ _ _,
   ai_guard_always_calls_vendor.2 _ _ rfl⟩

/-- C9: an invocation never mutates the adapter (the credential, client
token, threshold and recipe are unchanged), and invoking again from the
post-invocation state with the same input and the same vendor behaviour
yields the identical output. -/
theorem adapters_stateless :
    (∀ (g : PangeaDomainIntelGuard) (rb : List String → IntelResponse)
        (input_text : String),
      (g.invoke rb input_text).2 = g ∧
      ((g.invoke rb input_text).2.invoke rb input_text).1 =
        (g.invoke rb input_text).1) ∧
    (∀ (g : PangeaIpIntelGuard) (rb : List String → IntelResponse)
        (input_text : String),
      (g.invoke rb input_text).2 = g ∧
      ((g.invoke rb input_text).2.invoke rb input_text).1 =
        (g.invoke rb input_text).1) ∧
    (∀ (g : PangeaAIGuard) (guard_text : String → String → AIGuardResponse)
        (input_text : String),
      (g.invoke guard_text input_text).2 = g ∧
      ((g.invoke guard_text input_text).2.invoke guard_text input_text).1 =
        (g.invoke guard_text input_text).1) :=
  ⟨fun _ _ _ => ⟨rfl, rfl⟩, fun _ _ _ => ⟨rfl, rfl⟩, fun _ _ _ => ⟨rfl, rfl⟩⟩

/-- C2: the AI Guard adapter returns the vendor's redacted text exactly
when that field is present and non-empty, and returns the input verbatim
when the field is absent, empty, or falsy; no threshold is involved. -/
theorem ai_guard_redaction :
    ∀ (g : PangeaAIGuard) (guard_text : String → String → AIGuardResponse)
      (input_text : String) (res : AIGuardResult),
      (guard_text input_text g.recipe).result = some res →
      (∀ r, res.redacted_prompt = some r → r ≠ "" →
        (g.run guard_text input_text).1 = .ok r) ∧
      ((res.redacted_prompt = none ∨ res.redacted_prompt = some "") →
        (g.run guard_text input_text).1 = .ok input_text) := by
  intro g guard_text input_text res h
  constructor
  · intro r hr hne
    simp [PangeaAIGuard.run, h, hr, pyTruthyStr, hne]
  · rintro (hr | hr) <;> simp [PangeaAIGuard.run, h, hr, pyTruthyStr]

/-- Witness for C2: a stub vendor redacting to "[REDACTED]" has its
redaction returned; a stub with an empty redaction field passes the
input through. -/
theorem ai_guard_redaction_witness :
    ((PangeaAIGuard.mk "pangea_prompt_guard" "tok").run
        (fun _ _ => ⟨some ⟨some "[REDACTED]"⟩⟩) "my secret").1 =
      .ok "[REDACTED]" ∧
    ((PangeaAIGuard.mk "pangea_prompt_guard" "tok").run
        (fun _ _ => ⟨some ⟨none⟩⟩) "my secret").1 = .ok "my secret" :=
  ⟨(ai_guard_redaction _ _ _ ⟨some "[REDACTED]"⟩ rfl).1 "[REDACTED]" rfl
     (by decide),
   (ai_guard_redaction _ _ _ ⟨none⟩ rfl).2 (Or.inl rfl)⟩

/-- C6: a vendor response with no result payload makes each adapter
raise its own dedicated invalid-result error, the three error variants
being pairwise distinct; no partial result is returned. -/
theorem invalid_result_dedicated_error :
    (∀ (g : PangeaDomainIntelGuard) (rb : List String → IntelResponse)
        (input_text : String),
      re_findall domain_pattern input_text ≠ [] →
      (rb (re_findall domain_pattern input_text)).result = none →
      g.process_text rb input_text =
        (.error (.domainIntelGuardError "Result is invalid or missing"), 1)) ∧
    (∀ (g : PangeaIpIntelGuard) (rb : List String → IntelResponse)
        (input_text : String),
      re_findall ip_pattern input_text ≠ [] →
      (rb (re_findall ip_pattern input_text)).result = none →
      g.process_text rb input_text =
        (.error (.ipGuardError "Result is invalid or missing"), 1)) ∧
    (∀ (g : PangeaAIGuard) (guard_text : String → String → AIGuardResponse)
        (input_text : String),
      (guard_text input_text g.recipe).result = none →
      g.run guard_text input_text =
        (.error (.aiGuardError "Result is invalid or missing"), 1)) ∧
    (∀ m1 m2 : String,
      PangeaError.domainIntelGuardError m1 ≠ PangeaError.ipGuardError m2 ∧
      PangeaError.domainIntelGuardError m1 ≠ PangeaError.aiGuardError m2 ∧
      PangeaError.ipGuardError m1 ≠ PangeaError.aiGuardError m2) := by
  refine ⟨?_, ?_, ?_, ?_⟩
  · intro g rb input_text h hres
    simp only [PangeaDomainIntelGuard.process_text, List.length_eq_zero]
    rw [if_neg h, hres]
  · intro g rb input_text h hres
    simp only [PangeaIpIntelGuard.process_text, List.length_eq_zero]
    rw [if_neg h, hres]
  · intro g guard_text input_text hres
    simp [PangeaAIGuard.run, hres]
  · intro m1 m2
    exact ⟨by simp, by simp, by simp⟩

/-- Witness for C6: stub vendors returning no payload produce the three
dedicated errors on concrete inputs. -/
theorem invalid_result_dedicated_error_witness :
    (PangeaDomainIntelGuard.mk 80 "tok").process_text
        (fun _ => ⟨none⟩) "visit evil.com now" =
      (.error (.domainIntelGuardError "Result is invalid or missing"), 1) ∧
    (PangeaIpIntelGuard.mk 80 "tok").process_text
        (fun _ => ⟨none⟩) "ping 1.2.3.4 now" =
      (.error (.ipGuardError "Result is invalid or missing"), 1) ∧
    (PangeaAIGuard.mk "pangea_prompt_guard" "tok").run
        (fun _ _ => ⟨none⟩) "hi" =
      (.error (.aiGuardError "Result is invalid or missing"), 1) :=
  ⟨invalid_result_dedicated_error.1 _ _ _ (by decide) rfl,
   invalid_result_dedicated_error.2.1 _ _ _ (by decide) rfl,
   invalid_result_dedicated_error.2.2.1 _ _ _ rfl⟩

/-- The any-score test over the response data is the existence of one
entry at or above the threshold. -/
theorem any_score_iff {threshold : Int} {data : List (String × IntelData)} :
    ((data.map Prod.snd).any (fun d => decide (threshold ≤ d.score)) = true) ↔
      ∃ d ∈ data, threshold ≤ d.2.score := by
  simp only [List.any_map, List.any_eq_true, Function.comp, List.mem_map,
    decide_eq_true_eq]
  constructor
  · rintro ⟨x, ⟨d, hmem, rfl⟩, hsc⟩
    exact ⟨d, hmem, hsc⟩
  · rintro ⟨d, hmem, hsc⟩
    exact ⟨d.2, ⟨d, hmem, rfl⟩, hsc⟩

/-- C1: with a non-empty list of extracted entities and a vendor result
scoring exactly those entities, the domain and IP adapters return the
fixed block message iff at least one score reaches the threshold, and
the original input verbatim otherwise. -/
theorem block_iff_any_high_score :
    (∀ (g : PangeaDomainIntelGuard) (rb : List String → IntelResponse)
        (input_text : String) (res : IntelResult),
      re_findall domain_pattern input_text ≠ [] →
      (rb (re_findall domain_pattern input_text)).result = some res →
      res.data.map Prod.fst = re_findall domain_pattern input_text →
      (((g.process_text rb input_text).1 =
          .ok "Malicious domains found in the provided input.") ↔
        ∃ d ∈ res.data, g.threshold ≤ d.2.score) ∧
      ((¬ ∃ d ∈ res.data, g.threshold ≤ d.2.score) →
        (g.process_text rb input_text).1 = .ok input_text)) ∧
    (∀ (g : PangeaIpIntelGuard) (rb : List String → IntelResponse)
        (input_text : String) (res : IntelResult),
      re_findall ip_pattern input_text ≠ [] →
      (rb (re_findall ip_pattern input_text)).result = some res →
      res.data.map Prod.fst = re_findall ip_pattern input_text →
      (((g.process_text rb input_text).1 =
          .ok "Malicious IPs found in the provided input.") ↔
        ∃ d ∈ res.data, g.threshold ≤ d.2.score) ∧
      ((¬ ∃ d ∈ res.data, g.threshold ≤ d.2.score) →
        (g.process_text rb input_text).1 = .ok input_text)) := by
  constructor
  · intro g rb input_text res hne hres _hkeys
    have hproc : (g.process_text rb input_text).1 =
        if (res.data.map Prod.snd).any (fun d => decide (g.threshold ≤ d.score))
        then .ok "Malicious domains found in the provided input."
        else .ok input_text := by
      simp only [PangeaDomainIntelGuard.process_text, List.length_eq_zero]
      rw [if_neg hne, hres]
      by_cases hany :
          (res.data.map Prod.snd).any (fun d => decide (g.threshold ≤ d.score)) = true
      · simp [hany]
      · simp [hany]
    constructor
    · rw [hproc]
      by_cases hany :
          (res.data.map Prod.snd).any (fun d => decide (g.threshold ≤ d.score)) = true
      · rw [if_pos hany]
        simpa using any_score_iff.mp hany
      · rw [if_neg hany]
        constructor
        · intro hok
          have : input_text = "Malicious domains found in the provided input." := by
            simpa using hok
          rw [this] at hne
          exact absurd domain_block_msg_no_match hne
        · intro hex
          exact absurd (any_score_iff.mpr hex) hany
    · intro hex
      rw [hproc, if_neg (fun h => hex (any_score_iff.mp h))]
  · intro g rb input_text res hne hres _hkeys
    have hproc : (g.process_text rb input_text).1 =
        if (res.data.map Prod.snd).any (fun d => decide (g.threshold ≤ d.score))
        then .ok "Malicious IPs found in the provided input."
        else .ok input_text := by
      simp only [PangeaIpIntelGuard.process_text, List.length_eq_zero]
      rw [if_neg hne, hres]
      by_cases hany :
          (res.data.map Prod.snd).any (fun d => decide (g.threshold ≤ d.score)) = true
      · simp [hany]
      · simp [hany]
    constructor
    · rw [hproc]
      by_cases hany :
          (res.data.map Prod.snd).any (fun d => decide (g.threshold ≤ d.score)) = true
      · rw [if_pos hany]
        simpa using any_score_iff.mp hany
      · rw [if_neg hany]
        constructor
        · intro hok
          have : input_text = "Malicious IPs found in the provided input." := by
            simpa using hok
          rw [this] at hne
          exact absurd ip_block_msg_no_match hne
        · intro hex
          exact absurd (any_score_iff.mpr hex) hany
    · intro hex
      rw [hproc, if_neg (fun h => hex (any_score_iff.mp h))]

/-- Witness for C1: a domain scoring 95 is blocked; an IP scoring 10 is
passed through verbatim. -/
theorem block_iff_any_high_score_witness :
    ((PangeaDomainIntelGuard.mk 80 "tok").process_text
        (fun _ => ⟨some ⟨[("evil.com", ⟨95⟩)]⟩⟩) "visit evil.com now").1 =
      .ok "Malicious domains found in the provided input." ∧
    ((PangeaIpIntelGuard.mk 80 "tok").process_text
        (fun _ => ⟨some ⟨[("1.2.3.4", ⟨10⟩)]⟩⟩) "ping 1.2.3.4 now").1 =
      .ok "ping 1.2.3.4 now" :=
  ⟨(block_iff_any_high_score.1 _ _ _ ⟨[("evil.com", ⟨95⟩)]⟩
      (by decide) rfl (by decide)).1.mpr
      ⟨("evil.com", ⟨95⟩), by simp, by norm_num⟩,
   (block_iff_any_high_score.2 _ _ _ ⟨[("1.2.3.4", ⟨10⟩)]⟩
      (by decide) rfl (by decide)).2 (by decide)⟩

/-- C4: every score strictly below the threshold leaves the output equal
to the input verbatim (for any threshold), and with the default
threshold 80 a score of exactly 80 triggers the block message while 79
does not. -/
theorem threshold_boundary_inclusive :
    (∀ (g : PangeaDomainIntelGuard) (rb : List String → IntelResponse)
        (input_text : String) (res : IntelResult),
      (rb (re_findall domain_pattern input_text)).result = some res →
      (∀ d ∈ res.data, d.2.score < g.threshold) →
      (g.process_text rb input_text).1 = .ok input_text) ∧
    (∀ (g : PangeaIpIntelGuard) (rb : List String → IntelResponse)
        (input_text : String) (res : IntelResult),
      (rb (re_findall ip_pattern input_text)).result = some res →
      (∀ d ∈ res.data, d.2.score < g.threshold) →
      (g.process_text rb input_text).1 = .ok input_text) ∧
    (((PangeaDomainIntelGuard.mk 80 "tok").process_text
        (fun _ => ⟨some ⟨[("evil.com", ⟨80⟩)]⟩⟩) "visit evil.com now").1 =
      .ok "Malicious domains found in the provided input.") ∧
    (((PangeaDomainIntelGuard.mk 80 "tok").process_text
        (fun _ => ⟨some ⟨[("evil.com", ⟨79⟩)]⟩⟩) "visit evil.com now").1 =
      .ok "visit evil.com now") ∧
    (((PangeaIpIntelGuard.mk 80 "tok").process_text
        (fun _ => ⟨some ⟨[("1.2.3.4", ⟨80⟩)]⟩⟩) "ping 1.2.3.4 now").1 =
      .ok "Malicious IPs found in the provided input.") ∧
    (((PangeaIpIntelGuard.mk 80 "tok").process_text
        (fun _ => ⟨some ⟨[("1.2.3.4", ⟨79⟩)]⟩⟩) "ping 1.2.3.4 now").1 =
      .ok "ping 1.2.3.4 now") := by
  refine ⟨?_, ?_, by rfl, by rfl, by rfl, by rfl⟩
  · intro g rb input_text res hres hall
    simp only [PangeaDomainIntelGuard.process_text, List.length_eq_zero]
    by_cases hne : re_findall domain_pattern input_text = []
    · rw [if_pos hne]
    · rw [if_neg hne, hres]
      by_cases hany :
          (res.data.map Prod.snd).any (fun d => decide (g.threshold ≤ d.score)) = true
      · obtain ⟨d, hmem, hsc⟩ := any_score_iff.mp hany
        exact absurd hsc (not_le.mpr (hall d hmem))
      · simp [hany]
  · intro g rb input_text res hres hall
    simp only [PangeaIpIntelGuard.process_text, List.length_eq_zero]
    by_cases hne : re_findall ip_pattern input_text = []
    · rw [if_pos hne]
    · rw [if_neg hne, hres]
      by_cases hany :
          (res.data.map Prod.snd).any (fun d => decide (g.threshold ≤ d.score)) = true
      · obtain ⟨d, hmem, hsc⟩ := any_score_iff.mp hany
        exact absurd hsc (not_le.mpr (hall d hmem))
      · simp [hany]

/-- Witness for C4: with every score strictly below the threshold both
adapters pass the input through. -/
theorem threshold_boundary_inclusive_witness :
    ((PangeaDomainIntelGuard.mk 80 "tok").process_text
        (fun _ => ⟨some ⟨[("evil.com", ⟨10⟩)]⟩⟩) "visit evil.com now").1 =
      .ok "visit evil.com now" ∧
    ((PangeaIpIntelGuard.mk 80 "tok").process_text
        (fun _ => ⟨some ⟨[("1.2.3.4", ⟨0⟩)]⟩⟩) "ping 1.2.3.4 now").1 =
      .ok "ping 1.2.3.4 now" :=
  ⟨threshold_boundary_inclusive.1 _ _ _ ⟨[("evil.com", ⟨10⟩)]⟩ rfl (by decide),
   threshold_boundary_inclusive.2.1 _ _ _ ⟨[("1.2.3.4", ⟨0⟩)]⟩ rfl (by decide)⟩

/-- C7: the domain pattern's language is exactly the spec's domain
grammar, the IP pattern's language is exactly the spec's IPv4 grammar
(no 0-255 bounds check), and on the input "999.999.999.999" that string
is extracted as an IP. -/
theorem extraction_patterns_exact :
    (∀ s, REMatch domain_pattern s ↔ SpecDomain s) ∧
    (∀ s, REMatch ip_pattern s ↔ SpecIp s) ∧
    re_findall ip_pattern "999.999.999.999" = ["999.999.999.999"] :=
  ⟨fun _ => domain_pattern_lang, fun _ => ip_pattern_lang, by decide⟩

/-- A non-empty explicit secret resolves to itself. -/
theorem resolve_token_explicit (env : String → Option String) (t : SecretStr)
    (key : String) (ht : t.get_secret_value ≠ "") :
    resolve_token env (some t) key = .ok t := by
  simp only [SecretStr.get_secret_value] at ht
  simp [resolve_token, pyTruthySecret, SecretStr.toBool, SecretStr.get_secret_value, ht]

/-- C5: credential resolution, identical across the three adapters: a
non-empty explicit secret is used as supplied; with no (truthy) explicit
secret the named environment variable is read; if the resulting value is
empty or absent the constructor fails with an error naming the
environment variable, and in that case no vendor client is constructed
(in any of the three adapters). -/
theorem credential_resolution :
    (∀ (env : String → Option String) (t : SecretStr) (key : String),
      t.get_secret_value ≠ "" → resolve_token env (some t) key = .ok t) ∧
    (∀ (env : String → Option String) (token0 : Option SecretStr) (key v : String),
      pyTruthySecret token0 = false → env key = some v → v ≠ "" →
      resolve_token env token0 key = .ok ⟨v⟩) ∧
    (∀ (env : String → Option String) (token0 : Option SecretStr) (key : String),
      pyTruthySecret token0 = false → (env key).getD "" = "" →
      resolve_token env token0 key =
        .error ("'" ++ key ++ "' must be set or passed")) ∧
    (∀ (env : String → Option String) (token : Option SecretStr)
        (threshold : Int) (key recipe e : String),
      resolve_token env token key = .error e →
      PangeaDomainIntelGuard.init env token threshold key = (.error e, false) ∧
      PangeaIpIntelGuard.init env token threshold key = (.error e, false) ∧
      PangeaAIGuard.init env token key recipe = (.error e, false)) ∧
    (∀ (env : String → Option String) (t : SecretStr) (threshold : Int)
        (key : String),
      t.get_secret_value ≠ "" →
      PangeaDomainIntelGuard.init env (some t) threshold key =
        (.ok ⟨threshold, t.get_secret_value⟩, true)) := by
  refine ⟨?_, ?_, ?_, ?_, ?_⟩
  · intro env t key ht
    exact resolve_token_explicit env t key ht
  · intro env token0 key v h0 hv hne
    simp only [resolve_token, h0, os_getenv, hv, Bool.false_eq_true,
      Option.getD_some, if_pos]
    simp [pyTruthySecret, SecretStr.toBool, SecretStr.get_secret_value, hne]
  · intro env token0 key h0 hempty
    simp only [resolve_token, h0, os_getenv, hempty, if_pos]
    simp [pyTruthySecret, SecretStr.toBool, SecretStr.get_secret_value]
  · intro env token threshold key recipe e hres
    refine ⟨?_, ?_, ?_⟩ <;>
      simp [PangeaDomainIntelGuard.init, PangeaIpIntelGuard.init,
        PangeaAIGuard.init, hres]
  · intro env t threshold key ht
    have hres := resolve_token_explicit env t key ht
    simp [PangeaDomainIntelGuard.init, hres, SecretStr.get_secret_value]

/-- Witness for C5: an explicit secret is used; the environment variable
is read when no explicit secret is given; with both absent the domain
constructor fails naming the variable and constructs no client. -/
theorem credential_resolution_witness :
    resolve_token (fun _ => none) (some ⟨"abc"⟩) "PANGEA_DOMAIN_INTEL_TOKEN" =
      .ok ⟨"abc"⟩ ∧
    resolve_token
      (fun k => if k = "PANGEA_AI_GUARD_TOKEN" then some "envtok" else none)
      none "PANGEA_AI_GUARD_TOKEN" = .ok ⟨"envtok"⟩ ∧
    PangeaDomainIntelGuard.init (fun _ => none) none 80
      "PANGEA_DOMAIN_INTEL_TOKEN" =
      (.error "'PANGEA_DOMAIN_INTEL_TOKEN' must be set or passed", false) :=
  ⟨credential_resolution.1 _ _ _ (by decide),
   credential_resolution.2.1 _ _ _ _ rfl (by decide) (by decide),
   (credential_resolution.2.2.2.1 _ _ 80 _ "pangea_prompt_guard" _
      (credential_resolution.2.2.1 (fun _ => none) none
        "PANGEA_DOMAIN_INTEL_TOKEN" rfl rfl)).1⟩
